import Mathlib

/-!
Verification of the resilient AI-orchestration layer of `smart_todo`
(`backend/smartTodo/tasks/ai_service.py`).

The Python module is shallowly embedded below.  Python runtime values are
modelled by the inductive `PyVal` (floats become exact rationals `ℚ`; every
numeric value appearing in the claims is exactly representable, and every
comparison the claims depend on has the same outcome over `ℚ` as over IEEE
doubles).  Fallible Python code returns `Except PyExc _`, where `PyExc` names
the exception classes the module can raise or catch.  The external
`json.loads` of the standard library is modelled by an executable
recursive-descent parser `json_loads` of the JSON grammar (fuel-indexed for
termination; the fuel bound is generous for every input the theorems
evaluate).  Time is modelled as integer seconds; `datetime` values carry
their epoch second.
-/

namespace SmartTodo

/-- Embedding of the Python value universe used by `ai_service.py`:
`None`, `bool`, `int`, `float` (as `ℚ`), `str`, `list`, `dict` with string
keys (the only dicts the module builds), and timezone-aware `datetime`
(epoch seconds). -/
inductive PyVal where
  | none
  | bool (b : Bool)
  | int (n : ℤ)
  | float (q : ℚ)
  | str (s : String)
  | list (xs : List PyVal)
  | dict (kvs : List (String × PyVal))
  | datetime (t : ℤ)

/-- Exception classes raised or caught inside `ai_service.py`.
`connectionError` and `timeoutError` stand for `requests` transport faults;
they are the classes listed in `ai_breaker`'s `exclude` argument
(`ai_service.py` line 16). -/
inductive PyExc where
  | typeError
  | attributeError
  | keyError
  | valueError (msg : String)
  | jsonDecodeError
  | connectionError
  | timeoutError
  | circuitBreakerError
deriving Repr, DecidableEq

/-- Python dict lookup on an association list whose keys are unique. -/
def lookupKey : List (String × PyVal) → String → Option PyVal
  | [], _ => Option.none
  | (k, v) :: rest, key => if k = key then some v else lookupKey rest key

/-- Python dict item assignment: replace the value at an existing key in
place, otherwise append the new pair.  Keeps keys unique. -/
def setKey : List (String × PyVal) → String → PyVal → List (String × PyVal)
  | [], key, v => [(key, v)]
  | (k, w) :: rest, key, v =>
      if k = key then (key, v) :: rest else (k, w) :: setKey rest key v

/-- Python truthiness (`if x:`) for the embedded value universe. -/
def PyVal.truthy : PyVal → Bool
  | .none => false
  | .bool b => b
  | .int n => n ≠ 0
  | .float q => q ≠ 0
  | .str s => s ≠ ""
  | .list xs => ¬ xs.isEmpty
  | .dict kvs => ¬ kvs.isEmpty
  | .datetime _ => true

/-- Whether the value is a Python dict. -/
def PyVal.isDict : PyVal → Bool
  | .dict _ => true
  | _ => false

/-- Whether a dict value has the given key (false on non-dicts). -/
def PyVal.hasKey (v : PyVal) (key : String) : Bool :=
  match v with
  | .dict d => (lookupKey d key).isSome
  | _ => false

/-- Python `v.get(key, default)`: succeeds only on dicts, any other value
raises `AttributeError` (no `.get` attribute). -/
def pyDictGet (v : PyVal) (key : String) (dflt : PyVal) : Except PyExc PyVal :=
  match v with
  | .dict d => .ok ((lookupKey d key).getD dflt)
  | _ => .error .attributeError

/-- Substring containment test on strings (Python `needle in hay`).
Field names tested by the module are nonempty, for which the `splitOn`
characterisation is exact. -/
def strContainsSub (hay needle : String) : Bool :=
  needle = "" || (hay.splitOn needle).length > 1

/-- Python membership `key in v` for a string `key`: key test on dicts,
element-equality scan on lists (a string equals only an equal string),
substring test on strings, `TypeError` on non-containers. -/
def pyContains (key : String) (v : PyVal) : Except PyExc Bool :=
  match v with
  | .dict d => .ok (lookupKey d key).isSome
  | .list xs =>
      .ok (xs.any fun x => match x with | .str s => s = key | _ => false)
  | .str s => .ok (strContainsSub s key)
  | _ => .error .typeError

/-- Python subscription `v[key]` with a string key: dict lookup
(`KeyError` when absent); every other value raises `TypeError`. -/
def pyGetItem (v : PyVal) (key : String) : Except PyExc PyVal :=
  match v with
  | .dict d =>
      match lookupKey d key with
      | some w => .ok w
      | Option.none => .error .keyError
  | _ => .error .typeError

/-- Python item assignment `v[key] = w` with a string key: allowed on
dicts, `TypeError` on every other value. -/
def pySetItem (v : PyVal) (key : String) (w : PyVal) : Except PyExc PyVal :=
  match v with
  | .dict d => .ok (.dict (setKey d key w))
  | _ => .error .typeError

/-! JSON characters that the filesystem-level token rules make awkward to
spell as literals are defined by code point. -/

def lbraceChar : Char := Char.ofNat 123
def rbraceChar : Char := Char.ofNat 125
def quoteChar : Char := Char.ofNat 34
def backslashChar : Char := Char.ofNat 92

/-- JSON insignificant whitespace. -/
def jsonWs (c : Char) : Bool :=
  c == ' ' || c == Char.ofNat 9 || c == Char.ofNat 10 || c == Char.ofNat 13

/-- Drop leading JSON whitespace. -/
def skipWs : List Char → List Char
  | c :: cs => if jsonWs c then skipWs cs else c :: cs
  | [] => []

def isDigitChar (c : Char) : Bool := 48 ≤ c.toNat && c.toNat ≤ 57

def digitVal (c : Char) : ℕ := c.toNat - 48

/-- Split off a maximal (possibly empty) run of decimal digits. -/
def takeDigits : List Char → List Char × List Char
  | c :: cs =>
      if isDigitChar c then
        let (ds, rest) := takeDigits cs
        (c :: ds, rest)
      else ([], c :: cs)
  | [] => ([], [])

def digitsToNat (ds : List Char) : ℕ :=
  ds.foldl (fun a c => a * 10 + digitVal c) 0

def isHexChar (c : Char) : Bool :=
  isDigitChar c || (97 ≤ c.toNat && c.toNat ≤ 102) || (65 ≤ c.toNat && c.toNat ≤ 70)

def hexVal (c : Char) : ℕ :=
  if isDigitChar c then c.toNat - 48
  else if 97 ≤ c.toNat then c.toNat - 87
  else c.toNat - 55

/-- Parse a JSON number (`json.loads` grammar: optional sign, integer part,
optional fraction, optional exponent).  A literal with neither fraction nor
exponent yields a Python `int`, any other a `float`, as in CPython's json
module. -/
def parseNumber (cs : List Char) : Option (PyVal × List Char) :=
  let (neg, cs1) :=
    match cs with
    | c :: rest => if c == '-' then (true, rest) else (false, cs)
    | [] => (false, ([] : List Char))
  let (ds, cs2) := takeDigits cs1
  if ds.isEmpty then Option.none
  else
    let ip : ℚ := (digitsToNat ds : ℚ)
    let (frac, hasFrac, cs3) :=
      match cs2 with
      | c :: rest =>
          if c == '.' then
            let (fs, rest2) := takeDigits rest
            if fs.isEmpty then ((0 : ℚ), false, cs2)
            else (((digitsToNat fs : ℚ) / ((10 : ℚ) ^ fs.length)), true, rest2)
          else ((0 : ℚ), false, cs2)
      | [] => ((0 : ℚ), false, cs2)
    let mag : ℚ := ip + frac
    let (hasExp, expNeg, es, cs4) :=
      match cs3 with
      | c :: rest =>
          if c == 'e' || c == 'E' then
            match rest with
            | d :: rest2 =>
                if d == '+' then
                  let (es, r) := takeDigits rest2
                  (true, false, es, r)
                else if d == '-' then
                  let (es, r) := takeDigits rest2
                  (true, true, es, r)
                else
                  let (es, r) := takeDigits rest
                  (true, false, es, r)
            | [] => (true, false, ([] : List Char), ([] : List Char))
          else (false, false, ([] : List Char), cs3)
      | [] => (false, false, ([] : List Char), cs3)
    if hasExp && es.isEmpty then Option.none
    else
      let q0 : ℚ :=
        if hasExp then
          if expNeg then mag / ((10 : ℚ) ^ digitsToNat es)
          else mag * ((10 : ℚ) ^ digitsToNat es)
        else mag
      let signed : ℚ := if neg then -q0 else q0
      if hasFrac || hasExp then some (.float signed, cs4)
      else some (.int (if neg then -(digitsToNat ds : ℤ) else (digitsToNat ds : ℤ)), cs2)

mutual

/-- Parse one JSON value (fuel-indexed recursive descent over the JSON
grammar, following CPython's `json.loads`). -/
def parseValue : ℕ → List Char → Option (PyVal × List Char)
  | 0, _ => Option.none
  | fuel + 1, cs =>
    match skipWs cs with
    | [] => Option.none
    | c :: rest =>
      if c == quoteChar then
        match parseStrBody fuel rest [] with
        | some (s, r) => some (.str s, r)
        | Option.none => Option.none
      else if c == lbraceChar then
        match skipWs rest with
        | d :: rest2 =>
            if d == rbraceChar then some (.dict [], rest2)
            else parseMembers fuel (d :: rest2) []
        | [] => Option.none
      else if c == '[' then
        match skipWs rest with
        | d :: rest2 =>
            if d == ']' then some (.list [], rest2)
            else parseElements fuel (d :: rest2) []
        | [] => Option.none
      else if c == 't' then
        match rest with
        | 'r' :: 'u' :: 'e' :: r => some (.bool true, r)
        | _ => Option.none
      else if c == 'f' then
        match rest with
        | 'a' :: 'l' :: 's' :: 'e' :: r => some (.bool false, r)
        | _ => Option.none
      else if c == 'n' then
        match rest with
        | 'u' :: 'l' :: 'l' :: r => some (.none, r)
        | _ => Option.none
      else parseNumber (c :: rest)

/-- Parse the remaining characters of a JSON string literal (the opening
quote is already consumed), handling the escape sequences `json.loads`
accepts. -/
def parseStrBody : ℕ → List Char → List Char → Option (String × List Char)
  | 0, _, _ => Option.none
  | fuel + 1, cs, acc =>
    match cs with
    | [] => Option.none
    | c :: rest =>
      if c == quoteChar then some (String.mk acc.reverse, rest)
      else if c == backslashChar then
        match rest with
        | e :: rest2 =>
            if e == 'u' then
              match rest2 with
              | h1 :: h2 :: h3 :: h4 :: rest3 =>
                  if isHexChar h1 && isHexChar h2 && isHexChar h3 && isHexChar h4 then
                    let n := ((hexVal h1 * 16 + hexVal h2) * 16 + hexVal h3) * 16 + hexVal h4
                    parseStrBody fuel rest3 (Char.ofNat n :: acc)
                  else Option.none
              | _ => Option.none
            else if e == quoteChar then parseStrBody fuel rest2 (quoteChar :: acc)
            else if e == backslashChar then parseStrBody fuel rest2 (backslashChar :: acc)
            else if e == '/' then parseStrBody fuel rest2 ('/' :: acc)
            else if e == 'b' then parseStrBody fuel rest2 (Char.ofNat 8 :: acc)
            else if e == 'f' then parseStrBody fuel rest2 (Char.ofNat 12 :: acc)
            else if e == 'n' then parseStrBody fuel rest2 (Char.ofNat 10 :: acc)
            else if e == 'r' then parseStrBody fuel rest2 (Char.ofNat 13 :: acc)
            else if e == 't' then parseStrBody fuel rest2 (Char.ofNat 9 :: acc)
            else Option.none
        | [] => Option.none
      else parseStrBody fuel rest (c :: acc)

/-- Parse the elements of a nonempty JSON array (opening bracket consumed). -/
def parseElements : ℕ → List Char → List PyVal → Option (PyVal × List Char)
  | 0, _, _ => Option.none
  | fuel + 1, cs, acc =>
    match parseValue fuel cs with
    | Option.none => Option.none
    | some (v, rest) =>
      match skipWs rest with
      | c :: rest2 =>
          if c == ',' then parseElements fuel rest2 (acc ++ [v])
          else if c == ']' then some (.list (acc ++ [v]), rest2)
          else Option.none
      | [] => Option.none

/-- Parse the members of a nonempty JSON object (opening brace consumed);
a repeated key overwrites the earlier value, as in CPython. -/
def parseMembers : ℕ → List Char → List (String × PyVal) → Option (PyVal × List Char)
  | 0, _, _ => Option.none
  | fuel + 1, cs, acc =>
    match skipWs cs with
    | c :: rest =>
        if c == quoteChar then
          match parseStrBody fuel rest [] with
          | Option.none => Option.none
          | some (k, rest2) =>
            match skipWs rest2 with
            | d :: rest3 =>
                if d == ':' then
                  match parseValue fuel rest3 with
                  | Option.none => Option.none
                  | some (v, rest4) =>
                    match skipWs rest4 with
                    | e :: rest5 =>
                        if e == ',' then parseMembers fuel rest5 (setKey acc k v)
                        else if e == rbraceChar then
                          some (.dict (setKey acc k v), rest5)
                        else Option.none
                    | [] => Option.none
                else Option.none
            | [] => Option.none
        else Option.none
    | [] => Option.none

end

/-- Model of `json.loads` restricted to the success/failure interface the
module observes: `some` with the parsed value on a well-formed document
(whole input consumed up to whitespace), `Option.none` where CPython raises
`json.JSONDecodeError`. -/
def json_loads (s : String) : Option PyVal :=
  match parseValue (s.length + 2) s.toList with
  | some (v, rest) => if (skipWs rest).isEmpty then some v else Option.none
  | Option.none => Option.none

/-- Index of the first opening brace (`response.find` at
`ai_service.py` line 142), `Option.none` for Python's `-1`. -/
def firstBraceIdx (cs : List Char) : Option ℕ :=
  cs.findIdx? (fun c => c == lbraceChar)

/-- Index of the last closing brace (`response.rfind` at line 143). -/
def lastCloseIdx (cs : List Char) : Option ℕ :=
  match cs.reverse.findIdx? (fun c => c == rbraceChar) with
  | some i => some (cs.length - 1 - i)
  | Option.none => Option.none

/-- The candidate substring `response[json_start:json_end]` of
`ai_service.py` lines 142-145, under the guard
`json_start != -1 and json_end > json_start`. -/
def braceSubstring (s : String) : Option String :=
  let cs := s.toList
  match firstBraceIdx cs, lastCloseIdx cs with
  | some i, some j =>
      if i < j + 1 then some (String.mk ((cs.drop i).take (j + 1 - i)))
      else Option.none
  | _, _ => Option.none

/-- The dict returned at `ai_service.py` line 150 when both parse attempts
fail. -/
def unparsableMarker (s : String) : PyVal :=
  .dict [("error", .str "Failed to parse JSON response"), ("raw_response", .str s)]

/-- The dict returned at `ai_service.py` line 133 for a falsy response. -/
def emptyResponseMarker (s : String) : PyVal :=
  .dict [("error", .str "Empty response"), ("raw_response", .str s)]

/-- Embedding of `AITaskManager._extract_json_from_response`
(`ai_service.py` lines 130-150): full parse first, then the first-brace to
last-brace substring, then the unparsable marker. -/
def extract_json_from_response (s : String) : PyVal :=
  if s = "" then emptyResponseMarker s
  else
    match json_loads s with
    | some v => v
    | Option.none =>
      match braceSubstring s with
      | some sub =>
          match json_loads sub with
          | some v => v
          | Option.none => unparsableMarker s
      | Option.none => unparsableMarker s

/-! ## Inference client (`LMStudioClient`, lines 19-103) -/

/-- Outcome of one HTTP attempt against the model endpoint, classified the
way Python dispatches it over the `except` clauses of `_make_request`
(lines 79-100), which are tried top-down:
`success` — a structurally valid response;
`timeout` / `connectionFailure` — the transient transport faults caught at
lines 79 and 85;
`requestFailure` — any other `requests.exceptions.RequestException`,
caught at line 91;
`unparsableBody` — `response.json()` (line 66) raising
`requests.exceptions.JSONDecodeError` on a body that is not valid JSON:
that class subclasses `RequestException` (requests ≥ 2.27), so it is
caught by the EARLIER line-91 handler and retried, never reaching the
line-97 clause;
`invalidStructure` — the envelope validation failures that do reach the
`(KeyError, json.JSONDecodeError, ValueError)` handler at line 97:
`ValueError` from lines 69-73 and `KeyError`. -/
inductive AttemptOutcome where
  | success (content : String)
  | timeout
  | connectionFailure
  | requestFailure
  | unparsableBody
  | invalidStructure
deriving Repr, DecidableEq

/-- Behaviour of the backend across attempts: what attempt `i` produces. -/
abbrev Backend := ℕ → AttemptOutcome

/-- Number of retries of `LMStudioClient` (`self.max_retries = 3`, line 26). -/
def max_retries : ℕ := 3

/-- Embedding of the retry loop of `LMStudioClient._make_request`
(lines 53-103): returns the content (`None` modelled as `Option.none`) and
the number of attempts actually performed.  A timeout, connection error or
request error — the last including an unparsable response body, whose
requests-level `JSONDecodeError` is a `RequestException` caught at
line 91 — sleeps and continues; only an envelope-validation failure
reaches the line-97 handler and executes `break` (line 100); after the
loop the method returns `None` (line 103). -/
def requestLoop (b : Backend) : ℕ → ℕ → Option String × ℕ
  | attempt, 0 => (Option.none, attempt)
  | attempt, n + 1 =>
    match b attempt with
    | .success c => (some c, attempt + 1)
    | .invalidStructure => (Option.none, attempt + 1)
    | _ => requestLoop b (attempt + 1) n

/-- `_make_request` for a given backend behaviour. -/
def make_request (b : Backend) : Option String × ℕ :=
  requestLoop b 0 max_retries

/-! ## Circuit breaker (`ai_breaker`, line 16)

`ai_breaker = CircuitBreaker(fail_max=3, reset_timeout=60,
exclude=[ConnectionError, requests.exceptions.Timeout])`.  The state
machine below embeds pybreaker's `CircuitBreaker` semantics: CLOSED counts
consecutive non-excluded failures and trips to OPEN at `fail_max`, raising
`CircuitBreakerError`; OPEN short-circuits every call with
`CircuitBreakerError` until `reset_timeout` seconds have elapsed, then
admits one trial (half-open) that closes the breaker on success and
reopens it on a counted failure; an excluded exception is treated as a
success for breaker state (counter reset) and re-raised to the caller. -/

inductive BreakerState where
  | closed (failCount : ℕ)
  | opened (openedAt : ℤ)
deriving Repr, DecidableEq

/-- `fail_max=3` (line 16). -/
def fail_max : ℕ := 3

/-- `reset_timeout=60` (line 16), in seconds. -/
def reset_timeout : ℤ := 60

/-- The `exclude` list of `ai_breaker` (line 16): `ConnectionError` and
`requests.exceptions.Timeout` are not counted as breaker failures. -/
def breakerExcluded : PyExc → Bool
  | .connectionError => true
  | .timeoutError => true
  | _ => false

/-- One telemetry record of `AIProcessingLog` as written by
`_log_processing` (lines 114-128): processing type, success flag and
truncated error message.  The input/output snapshots, duration and model
identifier are carried by the real record but never observed by a claim,
so the embedding omits them; one list element corresponds to one appended
record. -/
abbrev LogRec := String × Bool × Option String

/-- Result of one orchestrator operation: the Python return value or the
exception escaping it, together with the telemetry records appended during
the call. -/
abbrev OpResult := Except PyExc PyVal × List LogRec

/-- `error_message[:500]` truncation (line 125). -/
def truncate500 (s : String) : String := String.mk (s.toList.take 500)

/-- Rendering of `str(e)` for the embedded exception classes.  Claims never
inspect these strings beyond their presence, so class names stand in for
CPython's message texts; `ValueError` carries the message the module itself
constructs. -/
def excMsg : PyExc → String
  | .typeError => "TypeError"
  | .attributeError => "AttributeError"
  | .keyError => "KeyError"
  | .valueError m => m
  | .jsonDecodeError => "JSONDecodeError"
  | .connectionError => "ConnectionError"
  | .timeoutError => "Timeout"
  | .circuitBreakerError => "CircuitBreakerError"

/-- A call through `ai_breaker` at time `now` whose decorated body produced
`body` (pybreaker `CircuitBreaker.call`).  In the OPEN state before
`reset_timeout` has elapsed the body does not run: no telemetry is written
and `CircuitBreakerError` is raised. -/
def breakerCall (st : BreakerState) (now : ℤ) (body : OpResult) :
    BreakerState × OpResult :=
  match st with
  | .closed n =>
    match body.1 with
    | .ok v => (.closed 0, (.ok v, body.2))
    | .error e =>
        if breakerExcluded e then (.closed 0, (.error e, body.2))
        else if fail_max ≤ n + 1 then
          (.opened now, (.error .circuitBreakerError, body.2))
        else (.closed (n + 1), (.error e, body.2))
  | .opened t =>
    if now - t < reset_timeout then (st, (.error .circuitBreakerError, []))
    else
      match body.1 with
      | .ok v => (.closed 0, (.ok v, body.2))
      | .error e =>
          if breakerExcluded e then (.closed 0, (.error e, body.2))
          else (.opened now, (.error .circuitBreakerError, body.2))

/-! ## Schema defaulting (the `for field, default in ...: if field not in
result or result[field] is None: result[field] = default` loops) -/

/-- One iteration of a defaulting loop (e.g. lines 213-215, 372-374,
524-526): membership test first, then the `is None` test via subscription,
then item assignment; each step raises on non-dict values exactly as the
corresponding Python operation does. -/
def applyDefault1 (v : PyVal) (kd : String × PyVal) : Except PyExc PyVal := do
  let present ← pyContains kd.1 v
  if present then
    let cur ← pyGetItem v kd.1
    match cur with
    | .none => pySetItem v kd.1 kd.2
    | _ => pure v
  else pySetItem v kd.1 kd.2

/-- The whole defaulting loop over an ordered field/default list. -/
def applyDefaults (defs : List (String × PyVal)) (v : PyVal) :
    Except PyExc PyVal :=
  defs.foldlM applyDefault1 v

/-! ## Fallback heuristics -/

/-- Snapshot of the attributes `prioritize_task` and
`_fallback_prioritization` read off a task via `getattr`: both persisted
`Task` rows and the ad hoc `TempTask` of `get_task_recommendations` carry
all of these attributes, with arbitrary Python values. -/
structure TaskObj where
  title : PyVal
  description : PyVal
  category : PyVal
  priority : PyVal
  deadline : PyVal
  estimated_duration : PyVal
  status : PyVal

/-- Coarse `str(x)` rendering.  The produced text is only ever stored in
output fields (`suggested_deadline`, `reasoning`, category names) that no
claim inspects, and never branches control flow. -/
def pyStrOf : PyVal → String
  | .str s => s
  | .none => "None"
  | .bool true => "True"
  | .bool false => "False"
  | .int n => toString n
  | .float q => toString q.num ++ "/" ++ toString q.den
  | .list _ => "[list]"
  | .dict _ => "[dict]"
  | .datetime t => "datetime(" ++ toString t ++ ")"

/-- Python `v.get(key, dflt)` on values statically known to be dicts
(non-dicts yield the default; every use site below is a dict). -/
def PyVal.getD (v : PyVal) (key : String) (dflt : PyVal) : PyVal :=
  match v with
  | .dict d => (lookupKey d key).getD dflt
  | _ => dflt

/-- `self.max_fallback_priority_score = 0.8` (line 112). -/
def max_fallback_priority_score : ℚ := 8/10

/-- The base-score table lookup
`priority_scores.get(current_priority, 0.5)` (lines 408-416): only the
four string keys hit the table, every other value takes the 0.5 default. -/
def baseScore (priority : PyVal) : ℚ :=
  match priority with
  | .str "low" => 3/10
  | .str "medium" => 1/2
  | .str "high" => 7/10
  | .str "urgent" => 9/10
  | _ => 1/2

/-- The score computation of `_fallback_prioritization` (lines 406-437):
base score, then the deadline adjustment.  `if deadline:` is Python
truthiness; `hasattr(deadline, 'date')` holds exactly for datetime values
in the embedded universe, any other truthy value takes the
`days_until = 1` default of lines 427-428; `(deadline - now).days` floors
(`timedelta.days`); stored datetimes are timezone-aware, so the
`timezone.is_naive` branch of line 424 is the identity. -/
def fallbackScoreCore (priority deadline : PyVal) (now : ℤ) : ℚ :=
  let score := baseScore priority
  if deadline.truthy then
    match deadline with
    | .datetime t =>
        let days_until : ℤ := Int.fdiv (t - now) 86400
        if days_until ≤ 0 then min (score + 3/10) max_fallback_priority_score
        else if days_until ≤ 2 then min (score + 2/10) max_fallback_priority_score
        else if days_until ≤ 7 then min (score + 1/10) max_fallback_priority_score
        else score
    | _ => min (score + 2/10) max_fallback_priority_score
  else score

/-- Embedding of `_fallback_prioritization` (lines 404-463).  No step of
the outer `try` can raise in the embedded universe (`getattr` with a
default and `str` are total), so the emergency handler of lines 450-463 is
unreachable. -/
def fallback_prioritization (task : TaskObj) (now : ℤ) : PyVal :=
  let score := fallbackScoreCore task.priority task.deadline now
  .dict
    [("priority_score", .float score),
     ("suggested_priority", task.priority),
     ("reasoning", .str "Fallback calculation based on priority and deadline"),
     ("urgency_factors", .list [.str "Fallback mode"]),
     ("suggested_deadline",
        if task.deadline.truthy then .str (pyStrOf task.deadline) else .none),
     ("estimated_duration_refined", task.estimated_duration),
     ("context_relevance", .str "Fallback mode - no context analysis"),
     ("recommended_actions", .list [.str "Review task manually"]),
     ("is_fallback", .bool true)]

/-- The score validation of `prioritize_task` (lines 351-359):
`isinstance(raw, (int, float))` also accepts `bool` (a Python `int`
subclass, `float(True) = 1.0`); numeric values are clamped by
`max(0.0, min(1.0, float(raw)))`; everything else becomes 0.5.  The
`except (TypeError, ValueError)` guard never fires in the embedded
universe since the conversion is total on numeric values. -/
def normalizePriorityScore (raw : PyVal) : ℚ :=
  match raw with
  | .int n => max 0 (min 1 (n : ℚ))
  | .float q => max 0 (min 1 q)
  | .bool b => if b then 1 else 0
  | _ => 1/2

/-! ## Orchestrator operations

Each operation is embedded as an undecorated `_body` plus, for the three
`@ai_breaker`-decorated methods, a decorated call through `breakerCall`.
The prompt built from the inputs (e.g. lines 177-192, 322-341) only feeds
`LMStudioClient._make_request`; the client interaction is summarised by a
`response : Option String` argument holding the value `_make_request`
returned (`Option.none` for `None`, i.e. all retries exhausted or a
structural failure). -/

/-- `ContextEntry` fields read by `analyze_context` (line 172-175). -/
structure ContextEntry where
  content : String
  source_type : String
  timestamp : ℤ

/-- The `priority_signals` default object (lines 165, 207, 236). -/
def prioritySignalsDefault : PyVal :=
  .dict [("high", .list []), ("medium", .list []), ("low", .list [])]

/-- The fixed no-context analysis returned for empty input
(lines 160-169). -/
def noContextAnalysis : PyVal :=
  .dict
    [("extracted_tasks", .list []),
     ("urgency_indicators", .list []),
     ("mentioned_deadlines", .list []),
     ("priority_signals", prioritySignalsDefault),
     ("context_summary", .str "No context provided"),
     ("workload_assessment", .str "light"),
     ("key_themes", .list [])]

/-- The `required_fields` defaults of `analyze_context` (lines 203-211). -/
def contextRequiredFields : List (String × PyVal) :=
  [("extracted_tasks", .list []),
   ("urgency_indicators", .list []),
   ("mentioned_deadlines", .list []),
   ("priority_signals", prioritySignalsDefault),
   ("context_summary", .str "Analysis completed"),
   ("workload_assessment", .str "moderate"),
   ("key_themes", .list [])]

/-- The error result of `analyze_context` (lines 231-240). -/
def contextErrorResult (msg : String) : PyVal :=
  .dict
    [("error", .str msg),
     ("extracted_tasks", .list []),
     ("urgency_indicators", .list []),
     ("mentioned_deadlines", .list []),
     ("priority_signals", prioritySignalsDefault),
     ("context_summary", .str "Analysis failed - using fallback"),
     ("workload_assessment", .str "moderate"),
     ("key_themes", .list [])]

/-- Embedding of the body of `AITaskManager.analyze_context`
(lines 153-251), without the `@ai_breaker` decorator.
`entries = Option.none` models passing Python `None`: line 157 evaluates
`len(context_entries)` before the `try` block, so `None` raises
`TypeError` out of the method (and no telemetry is written).  An empty
list returns the fixed no-context analysis from inside the `try`
(lines 160-169) without touching the client and without logging.  Any
exception inside the `try` (no response, or a defaulting step raising on
a non-dict parse result) is caught at line 230 and converted to the error
result, with one failure record. -/
def analyze_context_body (entries : Option (List ContextEntry))
    (response : Option String) : OpResult :=
  match entries with
  | Option.none => (.error .typeError, [])
  | some es =>
    if es.isEmpty then (.ok noContextAnalysis, [])
    else
      let tryResult : Except PyExc PyVal :=
        match response with
        | Option.none => .error (.valueError "No response from AI model")
        | some s => applyDefaults contextRequiredFields (extract_json_from_response s)
      match tryResult with
      | .ok r => (.ok r, [("context_analysis", true, Option.none)])
      | .error e =>
          let msg := excMsg e
          (.ok (contextErrorResult msg),
           [("context_analysis", false, some (truncate500 msg))])

/-- The decorated `analyze_context` as callers see it. -/
def analyze_context (st : BreakerState) (now : ℤ)
    (entries : Option (List ContextEntry)) (response : Option String) :
    BreakerState × OpResult :=
  breakerCall st now (analyze_context_body entries response)

/-- Embedding of `_get_safe_category_name` (lines 253-271).  In the
embedded universe only `None`, strings and dicts with a `"name"` key are
distinguishable; objects with a `name` attribute do not occur among the
values a task snapshot can carry here. -/
def safeCategoryName (category : PyVal) : String :=
  match category with
  | .none => "uncategorized"
  | .str s => s
  | .dict d =>
      match lookupKey d "name" with
      | some v => pyStrOf v
      | Option.none => "uncategorized"
  | _ => "uncategorized"

/-- The deadline-to-string conversion of lines 292-300: truthy datetimes
via `isoformat()`, other truthy values via `str()`, falsy values kept. -/
def deadlineStrVal (deadline : PyVal) : PyVal :=
  if deadline.truthy then
    match deadline with
    | .datetime t => .str ("datetime(" ++ toString t ++ ")")
    | d => .str (pyStrOf d)
  else deadline

/-- The `task_info` dict of `prioritize_task` (lines 282-300). -/
def taskInfo (task : TaskObj) : PyVal :=
  .dict
    [("title", task.title),
     ("description", if task.description.truthy then task.description else .str ""),
     ("category", .str (safeCategoryName task.category)),
     ("current_priority", task.priority),
     ("deadline", deadlineStrVal task.deadline),
     ("estimated_duration", task.estimated_duration),
     ("status", task.status)]

/-- The `defaults` table of `prioritize_task` (lines 362-370), built from
`task_info`. -/
def priorityDefaults (ti : PyVal) : List (String × PyVal) :=
  [("suggested_priority", ti.getD "current_priority" (.str "medium")),
   ("reasoning", .str "Priority analysis completed"),
   ("urgency_factors", .list []),
   ("suggested_deadline", ti.getD "deadline" .none),
   ("estimated_duration_refined", ti.getD "estimated_duration" .none),
   ("context_relevance", .str "Context considered in priority calculation"),
   ("recommended_actions", .list [])]

/-- Embedding of the body of `AITaskManager.prioritize_task`
(lines 274-402), without the decorator.  The context summary and task-load
strings (lines 302-320) only feed the prompt.  The `try` path: a missing
response raises `ValueError`; `result.get('priority_score', 0.5)` raises
`AttributeError` when the extractor produced a non-dict; the score is then
normalized and written back, defaults are overlaid, and one success record
is appended.  Any exception falls to the handler of line 389, which
substitutes `_fallback_prioritization` and appends one failure record; the
handler itself cannot raise. -/
def prioritize_task_body (task : TaskObj) (response : Option String)
    (now : ℤ) : OpResult :=
  let ti := taskInfo task
  let tryResult : Except PyExc PyVal :=
    match response with
    | Option.none => .error (.valueError "No response from AI model")
    | some s => do
        let result := extract_json_from_response s
        let raw ← pyDictGet result "priority_score" (.float (1/2))
        let result1 ← pySetItem result "priority_score"
          (.float (normalizePriorityScore raw))
        applyDefaults (priorityDefaults ti) result1
  match tryResult with
  | .ok r => (.ok r, [("task_prioritization", true, Option.none)])
  | .error e =>
      (.ok (fallback_prioritization task now),
       [("task_prioritization", false, some (truncate500 (excMsg e)))])

/-- The decorated `prioritize_task` as callers see it. -/
def prioritize_task (st : BreakerState) (now : ℤ) (task : TaskObj)
    (response : Option String) : BreakerState × OpResult :=
  breakerCall st now (prioritize_task_body task response now)

/-- The `tag_keywords` table of `_fallback_enhancement` (lines 566-573). -/
def tag_keywords : List (String × List String) :=
  [("meeting", ["meeting", "call", "discuss", "conference"]),
   ("research", ["research", "study", "analyze", "investigate"]),
   ("coding", ["code", "program", "develop", "implement"]),
   ("urgent", ["urgent", "asap", "immediately", "priority"]),
   ("review", ["review", "check", "verify", "audit"]),
   ("planning", ["plan", "schedule", "organize", "prepare"])]

/-- Embedding of `_fallback_enhancement` (lines 556-601).  For a dict
`task_data` with a string (or absent) title the main path succeeds; a
present non-string title makes `title.lower()` raise `AttributeError`,
caught at line 589, and the emergency dict of lines 591-601 is built
(`task_data.get("title", "Task")` succeeds on a dict).  For a non-dict
`task_data` the first `.get` raises `AttributeError` (line 559), and the
handler's own `.get` (line 592) raises again, escaping the method. -/
def fallback_enhancement (task_data : PyVal) : Except PyExc PyVal :=
  match task_data with
  | .dict d =>
    let title := (lookupKey d "title").getD (.str "")
    let description := (lookupKey d "description").getD (.str "")
    match title with
    | .str ts =>
        let tl := ts.toLower
        let tags :=
          (tag_keywords.filter fun kw => kw.2.any fun k => strContainsSub tl k).map
            fun kw => PyVal.str kw.1
        .ok (.dict
          [("enhanced_description",
              if description.truthy then description
              else .str ("Complete task: " ++ ts)),
           ("suggested_tags", .list (tags.take 3)),
           ("suggested_category", .str "general"),
           ("breakdown_suggestions", .list []),
           ("resource_suggestions", .list []),
           ("difficulty_assessment", .str "medium"),
           ("context_connections", .str "Fallback mode - no context analysis available"),
           ("is_fallback", .bool true)])
    | _ =>
        .ok (.dict
          [("enhanced_description", (lookupKey d "title").getD (.str "Task")),
           ("suggested_tags", .list []),
           ("suggested_category", .str "general"),
           ("breakdown_suggestions", .list []),
           ("resource_suggestions", .list []),
           ("difficulty_assessment", .str "medium"),
           ("context_connections", .str "Fallback failed"),
           ("is_fallback", .bool true),
           ("error", .str "AttributeError")])
  | _ => .error .attributeError

/-- The `defaults` table of `enhance_task` (lines 514-522), built from the
(already validated, hence dict) `task_data`. -/
def enhancementDefaults (task_data : PyVal) : List (String × PyVal) :=
  [("enhanced_description",
      task_data.getD "description" (task_data.getD "title" (.str ""))),
   ("suggested_tags", .list []),
   ("suggested_category", .str "general"),
   ("breakdown_suggestions", .list []),
   ("resource_suggestions", .list []),
   ("difficulty_assessment", .str "medium"),
   ("context_connections", .str "No specific context connections identified")]

/-- Embedding of the body of `AITaskManager.enhance_task`
(lines 466-554), without the decorator.  Non-dict `task_data` raises
`ValueError` inside the `try` (line 475); any `try` failure falls to the
handler of line 541, which calls `_fallback_enhancement` before logging —
so when that call itself raises (non-dict `task_data`) the exception
escapes with no telemetry record. -/
def enhance_task_body (task_data : PyVal) (response : Option String) :
    OpResult :=
  let tryResult : Except PyExc PyVal :=
    if ¬ task_data.isDict then .error (.valueError "task_data must be a dictionary")
    else
      match response with
      | Option.none => .error (.valueError "No response from AI model")
      | some s => applyDefaults (enhancementDefaults task_data)
          (extract_json_from_response s)
  match tryResult with
  | .ok r => (.ok r, [("task_enhancement", true, Option.none)])
  | .error e =>
      match fallback_enhancement task_data with
      | .ok fb => (.ok fb, [("task_enhancement", false, some (truncate500 (excMsg e)))])
      | .error e2 => (.error e2, [])

/-- The decorated `enhance_task` as callers see it. -/
def enhance_task (st : BreakerState) (now : ℤ) (task_data : PyVal)
    (response : Option String) : BreakerState × OpResult :=
  breakerCall st now (enhance_task_body task_data response)

/-- Coarse model of `django.utils.dateparse.parse_datetime` (an external
collaborator, not code of this repository): a nonempty decimal-digit
string denotes that epoch second, anything else fails to parse.  Only the
success/failure shape can influence control flow in
`get_task_recommendations`, and no claim depends on which datetime a
successfully parsed string denotes. -/
def parse_datetime_model (s : String) : Option ℤ :=
  let cs := s.toList
  if (¬ cs.isEmpty) && cs.all isDigitChar then some (digitsToNat cs : ℤ)
  else Option.none

/-- The deadline conversion and `TempTask` construction of
`get_task_recommendations` (lines 620-644): a truthy string deadline is
parsed (unparseable strings become `None`, line 633), any other value
passes through; the attribute bag gets status `"pending"`. -/
def tempTaskOf (task_data : PyVal) : TaskObj :=
  let dl0 := task_data.getD "deadline" .none
  let dl :=
    if dl0.truthy then
      match dl0 with
      | .str s =>
          match parse_datetime_model s with
          | some t => PyVal.datetime t
          | Option.none => PyVal.none
      | other => other
    else dl0
  { title := task_data.getD "title" (.str ""),
    description := task_data.getD "description" (.str ""),
    category := task_data.getD "category" .none,
    priority := task_data.getD "priority" (.str "medium"),
    deadline := dl,
    estimated_duration := task_data.getD "estimated_duration" .none,
    status := .str "pending" }

/-- The handler result of `get_task_recommendations` (lines 683-698),
built for a dict `task_data`. -/
def recsErrorResult (task_data : PyVal) (e : PyExc) : PyVal :=
  .dict
    [("priority_score", .float (1/2)),
     ("suggested_priority", .str "medium"),
     ("enhanced_description",
        task_data.getD "description" (task_data.getD "title" (.str ""))),
     ("suggested_tags", .list []),
     ("suggested_category", .str "general"),
     ("context_analysis",
        .dict [("summary", .str "Analysis failed"),
               ("urgency_indicators", .list []),
               ("themes", .list [])]),
     ("reasoning", .str ("Fallback due to error: " ++ excMsg e)),
     ("error", .str (excMsg e)),
     ("success", .bool false),
     ("is_fallback", .bool true)]

/-- The final-response construction of `get_task_recommendations`
(lines 653-674): every field is fetched with `.get` off the three
sub-results (raising `AttributeError` if one of them were not a dict), and
`suggested_deadline` is added only when truthy (line 673). -/
def combineRecommendations (ctx pri enh : PyVal) : Except PyExc PyVal := do
  let score ← pyDictGet pri "priority_score" (.float (1/2))
  let sp ← pyDictGet pri "suggested_priority" (.str "medium")
  let ed ← pyDictGet enh "enhanced_description" (.str "")
  let tags ← pyDictGet enh "suggested_tags" (.list [])
  let cat ← pyDictGet enh "suggested_category" (.str "general")
  let csum ← pyDictGet ctx "context_summary" (.str "No context analyzed")
  let cui ← pyDictGet ctx "urgency_indicators" (.list [])
  let cth ← pyDictGet ctx "key_themes" (.list [])
  let pr ← pyDictGet pri "reasoning" (.str "N/A")
  let ec ← pyDictGet enh "context_connections" (.str "N/A")
  let base : PyVal := .dict
    [("priority_score", score),
     ("suggested_priority", sp),
     ("enhanced_description", ed),
     ("suggested_tags", tags),
     ("suggested_category", cat),
     ("context_analysis",
        .dict [("summary", csum),
               ("urgency_indicators", cui),
               ("themes", cth)]),
     ("reasoning",
        .str ("Priority: " ++ pyStrOf pr ++ " | Enhancement: " ++ pyStrOf ec)),
     ("success", .bool true)]
  let sd ← pyDictGet pri "suggested_deadline" .none
  if sd.truthy then pySetItem base "suggested_deadline" sd
  else pure base

/-- Embedding of `AITaskManager.get_task_recommendations`
(lines 603-698); the method is not decorated with `@ai_breaker`, but its
sub-operations are, so the breaker state threads through them.  The
`user_preferences` and `current_task_load` parameters are accepted and
never read by the body, and are omitted.  `if context_entries:`
(line 616) is truthiness: both `None` and `[]` skip context analysis.
`respCtx`, `respPri`, `respEnh` are the client responses the three
potential sub-calls would receive.  The handler of line 681 catches every
exception from the `try`; for a non-dict `task_data` the handler's own
`task_data.get` (line 686) raises `AttributeError`, which escapes.
Telemetry records appended by completed sub-calls persist even when a
later step fails. -/
def get_task_recommendations (st : BreakerState) (now : ℤ)
    (task_data : PyVal) (entries : Option (List ContextEntry))
    (respCtx respPri respEnh : Option String) :
    BreakerState × OpResult :=
  if ¬ task_data.isDict then (st, (.error .attributeError, []))
  else
    let (st1, ctxRes, ctxLogs) :=
      match entries with
      | some (e :: es) =>
          let (st', r) := analyze_context st now (some (e :: es)) respCtx
          (st', r.1, r.2)
      | _ => (st, .ok (.dict []), ([] : List LogRec))
    match ctxRes with
    | .error e => (st1, (.ok (recsErrorResult task_data e), ctxLogs))
    | .ok ctx =>
      let tt := tempTaskOf task_data
      let (st2, priPair) := prioritize_task st1 now tt respPri
      match priPair.1 with
      | .error e =>
          (st2, (.ok (recsErrorResult task_data e), ctxLogs ++ priPair.2))
      | .ok pri =>
        let (st3, enhPair) := enhance_task st2 now task_data respEnh
        let logs := ctxLogs ++ priPair.2 ++ enhPair.2
        match enhPair.1 with
        | .error e => (st3, (.ok (recsErrorResult task_data e), logs))
        | .ok enh =>
          match combineRecommendations ctx pri enh with
          | .ok r => (st3, (.ok r, logs))
          | .error e => (st3, (.ok (recsErrorResult task_data e), logs))

/-- Required-field name sets of the result variants (spec §3). -/
def contextFieldNames : List String :=
  ["extracted_tasks", "urgency_indicators", "mentioned_deadlines",
   "priority_signals", "context_summary", "workload_assessment", "key_themes"]

def priorityFieldNames : List String :=
  ["priority_score", "suggested_priority", "reasoning", "urgency_factors",
   "suggested_deadline", "estimated_duration_refined", "context_relevance",
   "recommended_actions"]

def enhancementFieldNames : List String :=
  ["enhanced_description", "suggested_tags", "suggested_category",
   "breakdown_suggestions", "resource_suggestions", "difficulty_assessment",
   "context_connections"]

def recommendationFieldNames : List String :=
  ["priority_score", "suggested_priority", "enhanced_description",
   "suggested_tags", "suggested_category", "context_analysis", "reasoning",
   "success"]

/-- Whether a returned value is a dict carrying every required field. -/
def schemaComplete (v : PyVal) (fields : List String) : Bool :=
  v.isDict && fields.all (fun f => v.hasKey f)

/-- A plain task snapshot used by concrete scenarios. -/
def sampleTask : TaskObj :=
  { title := .str "write report", description := .none, category := .none,
    priority := .str "medium", deadline := .none,
    estimated_duration := .none, status := .str "pending" }

/-- An urgent task whose deadline is the current instant (the end-to-end
scenario of spec §8). -/
def urgentNowTask (now : ℤ) : TaskObj :=
  { title := .str "ship hotfix", description := .none, category := .none,
    priority := .str "urgent", deadline := .datetime now,
    estimated_duration := .none, status := .str "pending" }

/-- `n` consecutive decorated `prioritize_task` calls with a fixed client
response, threading the breaker state (all at time 0; the closed-state
transitions do not read the clock). -/
def iterTransientCalls (task : TaskObj) (resp : Option String) :
    ℕ → BreakerState → BreakerState
  | 0, st => st
  | n + 1, st => iterTransientCalls task resp n (prioritize_task st 0 task resp).1

/-! ## Helper lemmas on dicts and the defaulting loop -/

theorem lookupKey_setKey_self (d : List (String × PyVal)) (k : String) (v : PyVal) :
    lookupKey (setKey d k v) k = some v := by
  induction d with
  | nil => simp [setKey, lookupKey]
  | cons kv rest ih =>
      by_cases h : kv.1 = k
      · simp [setKey, h, lookupKey]
      · simp [setKey, h, lookupKey, ih]

theorem lookupKey_setKey_isSome (d : List (String × PyVal)) (k k' : String) (v : PyVal)
    (h : (lookupKey d k').isSome) : (lookupKey (setKey d k v) k').isSome := by
  induction d with
  | nil => simp [lookupKey] at h
  | cons kv rest ih =>
      by_cases hk : kv.1 = k
      · by_cases hk' : k = k'
        · simp [setKey, hk, lookupKey, hk']
        · simp [setKey, hk, lookupKey, hk'] at h ⊢
          simpa [lookupKey, hk ▸ hk'] using h
      · by_cases hk' : kv.1 = k'
        · have hne : ¬ k' = k := fun he => hk (hk'.trans he)
          simp [setKey, hk, lookupKey, hk', hne]
        · simp [setKey, hk, lookupKey, hk'] at h ⊢
          exact ih h

/-- A defaulting iteration on a dict succeeds, yields a dict that has the
processed key, and preserves every key already present. -/
theorem applyDefault1_dict (d : List (String × PyVal)) (kd : String × PyVal) :
    ∃ d', applyDefault1 (.dict d) kd = .ok (.dict d') ∧
      (lookupKey d' kd.1).isSome ∧
      (∀ k, (lookupKey d k).isSome → (lookupKey d' k).isSome) := by
  cases h : lookupKey d kd.1 with
  | none =>
      refine ⟨setKey d kd.1 kd.2, ?_, ?_, ?_⟩
      · simp [applyDefault1, pyContains, pySetItem, h, Bind.bind, Except.bind]
      · simp [lookupKey_setKey_self]
      · intro k hk; exact lookupKey_setKey_isSome d kd.1 k kd.2 hk
  | some cur =>
      cases cur with
      | none =>
          refine ⟨setKey d kd.1 kd.2, ?_, ?_, ?_⟩
          · simp [applyDefault1, pyContains, pyGetItem, pySetItem, h, Bind.bind, Except.bind]
          · simp [lookupKey_setKey_self]
          · intro k hk; exact lookupKey_setKey_isSome d kd.1 k kd.2 hk
      | bool b => exact ⟨d, by simp [applyDefault1, pyContains, pyGetItem, h, Bind.bind, Except.bind, Pure.pure, Except.pure], by simp [h], fun k hk => hk⟩
      | int n => exact ⟨d, by simp [applyDefault1, pyContains, pyGetItem, h, Bind.bind, Except.bind, Pure.pure, Except.pure], by simp [h], fun k hk => hk⟩
      | float q => exact ⟨d, by simp [applyDefault1, pyContains, pyGetItem, h, Bind.bind, Except.bind, Pure.pure, Except.pure], by simp [h], fun k hk => hk⟩
      | str s => exact ⟨d, by simp [applyDefault1, pyContains, pyGetItem, h, Bind.bind, Except.bind, Pure.pure, Except.pure], by simp [h], fun k hk => hk⟩
      | list xs => exact ⟨d, by simp [applyDefault1, pyContains, pyGetItem, h, Bind.bind, Except.bind, Pure.pure, Except.pure], by simp [h], fun k hk => hk⟩
      | dict kvs => exact ⟨d, by simp [applyDefault1, pyContains, pyGetItem, h, Bind.bind, Except.bind, Pure.pure, Except.pure], by simp [h], fun k hk => hk⟩
      | datetime t => exact ⟨d, by simp [applyDefault1, pyContains, pyGetItem, h, Bind.bind, Except.bind, Pure.pure, Except.pure], by simp [h], fun k hk => hk⟩

/-- The full defaulting loop on a dict: it succeeds, every processed key
is present afterwards, and keys already present are preserved. -/
theorem applyDefaults_dict (defs : List (String × PyVal)) (d : List (String × PyVal)) :
    ∃ d', applyDefaults defs (.dict d) = .ok (.dict d') ∧
      (∀ kd ∈ defs, (lookupKey d' kd.1).isSome) ∧
      (∀ k, (lookupKey d k).isSome → (lookupKey d' k).isSome) := by
  induction defs generalizing d with
  | nil => exact ⟨d, rfl, by simp, fun k hk => hk⟩
  | cons kd rest ih =>
      obtain ⟨d1, h1, hk1, hp1⟩ := applyDefault1_dict d kd
      obtain ⟨d2, h2, hk2, hp2⟩ := ih d1
      refine ⟨d2, ?_, ?_, ?_⟩
      · show ((kd :: rest).foldlM applyDefault1 (PyVal.dict d)) = _
        rw [List.foldlM_cons, h1]
        simpa [applyDefaults, Bind.bind, Except.bind] using h2
      · intro kd' hmem
        rcases List.mem_cons.mp hmem with he | hm
        · subst he; exact hp2 _ hk1
        · exact hk2 _ hm
      · intro k hk; exact hp2 _ (hp1 _ hk)

/-- A defaulting iteration on any non-dict value raises: the membership
test itself raises on scalars, and on lists/strings whichever of the
subscription or the item assignment runs raises `TypeError`. -/
theorem applyDefault1_not_dict (v : PyVal) (kd : String × PyVal)
    (h : v.isDict = false) : ∃ e, applyDefault1 v kd = .error e := by
  cases v with
  | dict d => simp [PyVal.isDict] at h
  | list xs =>
      by_cases hc : (xs.any fun x => match x with | .str s => s = kd.1 | _ => false) = true
      · exact ⟨.typeError, by simp [applyDefault1, pyContains, hc, pyGetItem,
          Bind.bind, Except.bind]⟩
      · exact ⟨.typeError, by simp [applyDefault1, pyContains, hc, pySetItem,
          Bind.bind, Except.bind]⟩
  | str s =>
      by_cases hc : strContainsSub s kd.1 = true
      · exact ⟨.typeError, by simp [applyDefault1, pyContains, hc, pyGetItem,
          Bind.bind, Except.bind]⟩
      · exact ⟨.typeError, by simp [applyDefault1, pyContains, hc, pySetItem,
          Bind.bind, Except.bind]⟩
  | none => exact ⟨.typeError, by simp [applyDefault1, pyContains, Bind.bind, Except.bind]⟩
  | bool b => exact ⟨.typeError, by simp [applyDefault1, pyContains, Bind.bind, Except.bind]⟩
  | int n => exact ⟨.typeError, by simp [applyDefault1, pyContains, Bind.bind, Except.bind]⟩
  | float q => exact ⟨.typeError, by simp [applyDefault1, pyContains, Bind.bind, Except.bind]⟩
  | datetime t => exact ⟨.typeError, by simp [applyDefault1, pyContains, Bind.bind, Except.bind]⟩

/-- A nonempty defaulting loop on a non-dict value raises. -/
theorem applyDefaults_not_dict (v : PyVal) (kd : String × PyVal)
    (defs : List (String × PyVal)) (h : v.isDict = false) :
    ∃ e, applyDefaults (kd :: defs) v = .error e := by
  obtain ⟨e, he⟩ := applyDefault1_not_dict v kd h
  refine ⟨e, ?_⟩
  show ((kd :: defs).foldlM applyDefault1 v) = _
  rw [List.foldlM_cons, he]
  induction defs with
  | nil => rfl
  | cons _ _ _ => rfl

/-- A defaulting loop either returns a dict carrying all the loop's keys,
or raises (the dichotomy `analyze_context`/`prioritize_task`/`enhance_task`
resolve with their `except` handlers). -/
theorem applyDefaults_schema (defs : List (String × PyVal)) (v : PyVal)
    (hne : defs ≠ []) :
    (∃ r, applyDefaults defs v = .ok r ∧ r.isDict = true ∧
        ∀ f ∈ defs.map Prod.fst, r.hasKey f = true) ∨
    (∃ e, applyDefaults defs v = .error e) := by
  by_cases hd : v.isDict = true
  · left
    obtain ⟨d, rfl⟩ : ∃ d, v = .dict d := by
      cases v <;> simp_all [PyVal.isDict]
    obtain ⟨d', h, hk, _⟩ := applyDefaults_dict defs d
    refine ⟨.dict d', h, rfl, ?_⟩
    intro f hf
    obtain ⟨kd, hm, he⟩ := List.mem_map.mp hf
    subst he
    simpa [PyVal.hasKey] using hk kd hm
  · right
    obtain ⟨kd, rest, rfl⟩ : ∃ kd rest, defs = kd :: rest := by
      cases defs with
      | nil => simp at hne
      | cons a b => exact ⟨a, b, rfl⟩
    exact applyDefaults_not_dict v kd rest (by simpa using hd)

theorem contextRequiredFields_names :
    contextRequiredFields.map Prod.fst = contextFieldNames := rfl

theorem priorityDefaults_names (ti : PyVal) :
    (priorityDefaults ti).map Prod.fst = priorityFieldNames.tail := rfl

theorem enhancementDefaults_names (td : PyVal) :
    (enhancementDefaults td).map Prod.fst = enhancementFieldNames := rfl

theorem noContextAnalysis_schema :
    schemaComplete noContextAnalysis contextFieldNames = true := rfl

theorem contextErrorResult_schema (msg : String) :
    schemaComplete (contextErrorResult msg) contextFieldNames = true := rfl

theorem fallback_prioritization_schema (task : TaskObj) (now : ℤ) :
    schemaComplete (fallback_prioritization task now) priorityFieldNames = true := rfl

theorem recsErrorResult_schema (td : PyVal) (e : PyExc) :
    schemaComplete (recsErrorResult td e) recommendationFieldNames = true := rfl

theorem pyDictGet_not_dict (v : PyVal) (k : String) (dflt : PyVal)
    (h : v.isDict = false) : pyDictGet v k dflt = .error .attributeError := by
  cases v <;> simp_all [pyDictGet, PyVal.isDict]

/-- `_fallback_enhancement` on a dict argument always succeeds with a
schema-complete dict (main path for a string or absent title, emergency
path for a present non-string title). -/
theorem fallback_enhancement_dict_ok (d : List (String × PyVal)) :
    ∃ fb, fallback_enhancement (.dict d) = .ok fb ∧
      schemaComplete fb enhancementFieldNames = true := by
  cases h : (lookupKey d "title").getD (.str "") with
  | str ts =>
      simp only [fallback_enhancement, h]
      exact ⟨_, rfl, rfl⟩
  | none =>
      simp only [fallback_enhancement, h]
      exact ⟨_, rfl, rfl⟩
  | bool b =>
      simp only [fallback_enhancement, h]
      exact ⟨_, rfl, rfl⟩
  | int n =>
      simp only [fallback_enhancement, h]
      exact ⟨_, rfl, rfl⟩
  | float q =>
      simp only [fallback_enhancement, h]
      exact ⟨_, rfl, rfl⟩
  | list xs =>
      simp only [fallback_enhancement, h]
      exact ⟨_, rfl, rfl⟩
  | dict kvs =>
      simp only [fallback_enhancement, h]
      exact ⟨_, rfl, rfl⟩
  | datetime t =>
      simp only [fallback_enhancement, h]
      exact ⟨_, rfl, rfl⟩

/-- The undecorated `analyze_context` body on a list argument never raises,
returns a schema-complete dict, and appends one record exactly when the
list is nonempty. -/
theorem analyze_context_body_ok (es : List ContextEntry) (rc : Option String) :
    ∃ r logs, analyze_context_body (some es) rc = (.ok r, logs) ∧
      schemaComplete r contextFieldNames = true ∧
      logs.length = (if es.isEmpty then 0 else 1) := by
  by_cases he : es.isEmpty
  · simp only [analyze_context_body, if_pos he]
    exact ⟨noContextAnalysis, [], rfl, noContextAnalysis_schema, by simp [he]⟩
  · cases rc with
    | none =>
        simp only [analyze_context_body, if_neg he]
        exact ⟨_, _, rfl, contextErrorResult_schema _, by simp [he]⟩
    | some s =>
        rcases applyDefaults_schema contextRequiredFields
            (extract_json_from_response s) (by simp [contextRequiredFields]) with
          ⟨r, hr, hd, hk⟩ | ⟨e, herr⟩
        · simp only [analyze_context_body, if_neg he, hr]
          refine ⟨r, _, rfl, ?_, by simp [he]⟩
          simp only [schemaComplete, Bool.and_eq_true, List.all_eq_true]
          refine ⟨hd, fun f hf => hk f ?_⟩
          rw [contextRequiredFields_names]
          exact hf
        · simp only [analyze_context_body, if_neg he, herr]
          exact ⟨_, _, rfl, contextErrorResult_schema _, by simp [he]⟩

/-- The undecorated `prioritize_task` body never raises for any task and
any client response: it returns a schema-complete dict (AI path or
fallback) and appends exactly one record. -/
theorem prioritize_task_body_ok (task : TaskObj) (rp : Option String) (now : ℤ) :
    ∃ r logs, prioritize_task_body task rp now = (.ok r, logs) ∧
      schemaComplete r priorityFieldNames = true ∧ logs.length = 1 := by
  cases rp with
  | none =>
      simp only [prioritize_task_body]
      exact ⟨_, _, rfl, fallback_prioritization_schema task now, rfl⟩
  | some s =>
      by_cases hd : (extract_json_from_response s).isDict = true
      · obtain ⟨d0, hd0⟩ : ∃ d0, extract_json_from_response s = .dict d0 := by
          cases h : extract_json_from_response s <;> simp_all [PyVal.isDict]
        obtain ⟨d', hdefs, hk, hpres⟩ :=
          applyDefaults_dict (priorityDefaults (taskInfo task))
            (setKey d0 "priority_score"
              (.float (normalizePriorityScore
                ((lookupKey d0 "priority_score").getD (.float (1/2))))))
        have hschema : schemaComplete (.dict d') priorityFieldNames = true := by
          simp only [schemaComplete, PyVal.isDict, Bool.and_eq_true,
            List.all_eq_true, Bool.true_and]
          intro f hf
          have hsplit : f = "priority_score" ∨ f ∈ priorityFieldNames.tail := by
            simpa [priorityFieldNames] using hf
          rcases hsplit with rfl | hfm
          · have hset : (lookupKey (setKey d0 "priority_score"
                (.float (normalizePriorityScore
                  ((lookupKey d0 "priority_score").getD (.float (1/2))))))
                "priority_score").isSome := by
              simp [lookupKey_setKey_self]
            simpa [PyVal.hasKey] using hpres _ hset
          · rw [← priorityDefaults_names (taskInfo task)] at hfm
            obtain ⟨kd, hm, he⟩ := List.mem_map.mp hfm
            subst he
            simpa [PyVal.hasKey] using hk kd hm
        simp only [prioritize_task_body, hd0, pyDictGet, pySetItem,
          Bind.bind, Except.bind, hdefs]
        exact ⟨.dict d', _, rfl, hschema, rfl⟩
      · simp only [prioritize_task_body,
          pyDictGet_not_dict _ _ _ (by simpa using hd), Bind.bind, Except.bind]
        exact ⟨_, _, rfl, fallback_prioritization_schema task now, rfl⟩

/-- The undecorated `enhance_task` body on a dict argument never raises,
returns a schema-complete dict, and appends exactly one record. -/
theorem enhance_task_body_ok (d : List (String × PyVal)) (re : Option String) :
    ∃ r logs, enhance_task_body (.dict d) re = (.ok r, logs) ∧
      schemaComplete r enhancementFieldNames = true ∧ logs.length = 1 := by
  obtain ⟨fb, hfb, hfbs⟩ := fallback_enhancement_dict_ok d
  cases re with
  | none =>
      simp only [enhance_task_body, PyVal.isDict, Bool.not_true,
        Bool.false_eq_true, if_false, hfb]
      exact ⟨fb, _, rfl, hfbs, rfl⟩
  | some s =>
      rcases applyDefaults_schema (enhancementDefaults (.dict d))
          (extract_json_from_response s) (by simp [enhancementDefaults]) with
        ⟨r, hr, hdd, hk⟩ | ⟨e, herr⟩
      · have hschema : schemaComplete r enhancementFieldNames = true := by
          simp only [schemaComplete, Bool.and_eq_true, List.all_eq_true]
          refine ⟨hdd, fun f hf => hk f ?_⟩
          rw [enhancementDefaults_names]
          exact hf
        simp only [enhance_task_body, PyVal.isDict, Bool.not_true,
          Bool.false_eq_true, if_false, hr]
        exact ⟨r, _, rfl, hschema, rfl⟩
      · simp only [enhance_task_body, PyVal.isDict, Bool.not_true,
          Bool.false_eq_true, if_false, herr, hfb]
        exact ⟨fb, _, rfl, hfbs, rfl⟩

/-- A decorated call in the CLOSED state whose body succeeds resets the
failure counter and passes result and telemetry through unchanged. -/
theorem breakerCall_closed_ok (c : ℕ) (now : ℤ) (body : OpResult) (r : PyVal)
    (logs : List LogRec) (h : body = (.ok r, logs)) :
    breakerCall (.closed c) now body = (.closed 0, (.ok r, logs)) := by
  subst h; rfl

/-- A schema-complete value is a dict. -/
theorem schemaComplete_isDict (v : PyVal) (fields : List String)
    (h : schemaComplete v fields = true) : ∃ d, v = .dict d := by
  cases v <;> simp_all [schemaComplete, PyVal.isDict]

/-- The final-response construction succeeds on three dict sub-results and
carries every required recommendation field. -/
theorem combineRecommendations_dicts (cd dp de : List (String × PyVal)) :
    ∃ r, combineRecommendations (.dict cd) (.dict dp) (.dict de) = .ok r ∧
      schemaComplete r recommendationFieldNames = true := by
  by_cases hsd : ((lookupKey dp "suggested_deadline").getD .none).truthy = true
  · simp only [combineRecommendations, pyDictGet, Bind.bind, Except.bind, hsd,
      if_true, pySetItem]
    exact ⟨_, rfl, rfl⟩
  · simp only [combineRecommendations, pyDictGet, Bind.bind, Except.bind, hsd,
      if_false, Pure.pure, Except.pure]
    exact ⟨_, rfl, rfl⟩

/-- `get_task_recommendations` with a dict `task_data` and the breaker
CLOSED: never raises, returns a schema-complete dict, and appends exactly
one telemetry record per sub-operation actually invoked (three with a
nonempty entry list, two otherwise) and none of its own. -/
theorem get_task_recommendations_ok (c : ℕ) (now : ℤ)
    (d : List (String × PyVal)) (entries : Option (List ContextEntry))
    (r1 r2 r3 : Option String) :
    ∃ st' r logs,
      get_task_recommendations (.closed c) now (.dict d) entries r1 r2 r3
        = (st', (.ok r, logs)) ∧
      schemaComplete r recommendationFieldNames = true ∧
      logs.length = (match entries with | some (_ :: _) => 3 | _ => 2) := by
  have hpri : ∀ (k : ℕ) (task : TaskObj), ∃ dp plogs,
      prioritize_task (.closed k) now task r2
        = ((.closed 0 : BreakerState), (.ok (.dict dp), plogs)) ∧
      plogs.length = 1 := by
    intro k task
    obtain ⟨pr, plogs, hb, hs, hl⟩ := prioritize_task_body_ok task r2 now
    obtain ⟨dp, rfl⟩ := schemaComplete_isDict pr _ hs
    exact ⟨dp, plogs, breakerCall_closed_ok k now _ _ plogs hb, hl⟩
  have henh0 : ∃ de elogs,
      enhance_task (.closed 0) now (.dict d) r3
        = ((.closed 0 : BreakerState), (.ok (.dict de), elogs)) ∧
      elogs.length = 1 := by
    obtain ⟨er, elogs, hb, hs, hl⟩ := enhance_task_body_ok d r3
    obtain ⟨de, rfl⟩ := schemaComplete_isDict er _ hs
    exact ⟨de, elogs, breakerCall_closed_ok 0 now _ _ elogs hb, hl⟩
  obtain ⟨de, elogs, henh, helen⟩ := henh0
  cases entries with
  | none =>
      obtain ⟨dp, plogs, hp, hpl⟩ := hpri c (tempTaskOf (.dict d))
      obtain ⟨r, hcomb, hrs⟩ := combineRecommendations_dicts [] dp de
      simp only [get_task_recommendations, PyVal.isDict, Bool.not_true,
        Bool.false_eq_true, if_false, hp, henh, hcomb]
      exact ⟨_, r, _, rfl, hrs, by simp [hpl, helen]⟩
  | some l =>
    cases l with
    | nil =>
        obtain ⟨dp, plogs, hp, hpl⟩ := hpri c (tempTaskOf (.dict d))
        obtain ⟨r, hcomb, hrs⟩ := combineRecommendations_dicts [] dp de
        simp only [get_task_recommendations, PyVal.isDict, Bool.not_true,
          Bool.false_eq_true, if_false, hp, henh, hcomb]
        exact ⟨_, r, _, rfl, hrs, by simp [hpl, helen]⟩
    | cons e0 es0 =>
        obtain ⟨cr, clogs, hcbody, hcs, hclen⟩ := analyze_context_body_ok (e0 :: es0) r1
        have hclen1 : clogs.length = 1 := by simpa using hclen
        have hctx : analyze_context (.closed c) now (some (e0 :: es0)) r1
            = (.closed 0, (.ok cr, clogs)) :=
          breakerCall_closed_ok c now _ cr clogs hcbody
        obtain ⟨cd, rfl⟩ := schemaComplete_isDict cr _ hcs
        obtain ⟨dp, plogs, hp, hpl⟩ := hpri 0 (tempTaskOf (.dict d))
        obtain ⟨r, hcomb, hrs⟩ := combineRecommendations_dicts cd dp de
        simp only [get_task_recommendations, PyVal.isDict, Bool.not_true,
          Bool.false_eq_true, if_false, hctx, hp, henh, hcomb]
        exact ⟨_, r, _, rfl, hrs, by simp [hclen1, hpl, helen]⟩

/-! ## Claim theorems -/

/-- C6: in `prioritize_task`'s validation step (`ai_service.py`
lines 351-359) every parsed `priority_score` is normalized into [0,1]:
numeric values outside the range are clamped to the nearest bound
(1.7 becomes 1.0, -0.2 becomes 0.0) and a non-numeric value such as the
string "n/a" is replaced by 0.5, so the score written back into the
result always lies within [0,1]. -/
theorem C6_score_normalization (raw : PyVal) :
    0 ≤ normalizePriorityScore raw ∧ normalizePriorityScore raw ≤ 1 ∧
    normalizePriorityScore (.float (17/10)) = 1 ∧
    normalizePriorityScore (.float (-2/10)) = 0 ∧
    normalizePriorityScore (.str "n/a") = 1/2 := by
  refine ⟨?_, ?_, by with_unfolding_all rfl, by with_unfolding_all rfl, rfl⟩
  · cases raw with
    | int n => exact le_max_left 0 _
    | float q => exact le_max_left 0 _
    | bool b => cases b <;> norm_num [normalizePriorityScore]
    | none => norm_num [normalizePriorityScore]
    | str s => norm_num [normalizePriorityScore]
    | list xs => norm_num [normalizePriorityScore]
    | dict kvs => norm_num [normalizePriorityScore]
    | datetime t => norm_num [normalizePriorityScore]
  · cases raw with
    | int n => exact max_le (by norm_num) (min_le_left 1 _)
    | float q => exact max_le (by norm_num) (min_le_left 1 _)
    | bool b => cases b <;> norm_num [normalizePriorityScore]
    | none => norm_num [normalizePriorityScore]
    | str s => norm_num [normalizePriorityScore]
    | list xs => norm_num [normalizePriorityScore]
    | dict kvs => norm_num [normalizePriorityScore]
    | datetime t => norm_num [normalizePriorityScore]

/-- C8 counterexample: an unparsable response body does NOT terminate the
retry loop.  `response.json()` raises `requests.exceptions.JSONDecodeError`,
a `RequestException` subclass caught by the generic handler at line 91
before the line-97 clause can see it, so a backend whose every response
body is unparsable is retried for the full 3 attempts — not stopped after
the first, as the claim states. -/
theorem C8_counterexample :
    make_request (fun _ => .unparsableBody) = (Option.none, 3) ∧
    make_request (fun _ => .unparsableBody) ≠ (Option.none, 1) :=
  ⟨rfl, by decide⟩

/-- C8 amended: in `LMStudioClient._make_request`'s retry loop
(lines 54-103) only a response failing the envelope validation (missing
`choices` or message content — `ValueError` from lines 69-73, or
`KeyError`) is terminal: the loop breaks on the attempt it arrives
(after any run of retried faults) and the client returns failure.  An
unparsable body raises requests' `JSONDecodeError`, a `RequestException`
subclass caught by the earlier generic handler, so — like connection
errors and timeouts — it is retried up to the maximum of 3 attempts
before the client returns failure. -/
theorem C8_retry_policy (b : Backend) :
    (∀ k, k < max_retries →
      (∀ i, i < k → b i = .timeout ∨ b i = .connectionFailure ∨
        b i = .requestFailure ∨ b i = .unparsableBody) →
      b k = .invalidStructure → make_request b = (Option.none, k + 1)) ∧
    ((∀ i, i < max_retries → b i = .timeout ∨ b i = .connectionFailure) →
      make_request b = (Option.none, max_retries)) ∧
    ((∀ i, i < max_retries → b i = .unparsableBody) →
      make_request b = (Option.none, max_retries)) := by
  refine ⟨?_, ?_, ?_⟩
  · intro k hk hpre hb
    simp only [max_retries] at hk
    interval_cases k
    · simp [make_request, requestLoop, max_retries, hb]
    · rcases hpre 0 (by norm_num) with h0 | h0 | h0 | h0 <;>
        simp [make_request, requestLoop, max_retries, h0, hb]
    · rcases hpre 0 (by norm_num) with h0 | h0 | h0 | h0 <;>
        rcases hpre 1 (by norm_num) with h1 | h1 | h1 | h1 <;>
        simp [make_request, requestLoop, max_retries, h0, h1, hb]
  · intro h
    rcases h 0 (by norm_num [max_retries]) with h0 | h0 <;>
      rcases h 1 (by norm_num [max_retries]) with h1 | h1 <;>
      rcases h 2 (by norm_num [max_retries]) with h2 | h2 <;>
      simp [make_request, requestLoop, max_retries, h0, h1, h2]
  · intro h
    simp [make_request, requestLoop, max_retries,
      h 0 (by norm_num [max_retries]), h 1 (by norm_num [max_retries]),
      h 2 (by norm_num [max_retries])]

/-- Witness for C8: a backend failing envelope validation on its first
response stops the client after exactly one attempt; a backend that times
out on every attempt, and one whose every body is unparsable, each make
the client fail only after the full 3 attempts. -/
theorem C8_retry_policy_witness :
    make_request (fun _ => .invalidStructure) = (Option.none, 1) ∧
    make_request (fun _ => .timeout) = (Option.none, max_retries) ∧
    make_request (fun _ => .unparsableBody) = (Option.none, max_retries) :=
  ⟨(C8_retry_policy _).1 0 (by norm_num [max_retries])
      (fun i hi => absurd hi (by omega)) rfl,
   (C8_retry_policy _).2.1 (fun i _ => Or.inl rfl),
   (C8_retry_policy _).2.2 (fun i _ => rfl)⟩

/-- C7 counterexample: the input "42" contains no brace characters, yet
the extractor returns the parsed integer 42, not the unparsable marker
(a dict with an "error" key), because the full-text parse succeeds —
refuting the claim that every text without braces yields the marker. -/
theorem C7_counterexample :
    ("42".toList.any fun c => c == lbraceChar || c == rbraceChar) = false ∧
    extract_json_from_response "42" = .int 42 ∧
    (extract_json_from_response "42").hasKey "error" = false :=
  ⟨rfl, rfl, rfl⟩

/-- C7 amended: (1) for raw text that is not itself valid JSON but whose
substring from the first opening brace to the last closing brace parses,
the extractor returns exactly that embedded object; (2) a nonempty text
with no opening brace that is also not itself valid JSON yields the
unparsable marker. -/
theorem C7_amended (s sub : String) (v : PyVal) :
    (json_loads s = Option.none → braceSubstring s = some sub →
      json_loads sub = some v → extract_json_from_response s = v) ∧
    (json_loads s = Option.none → firstBraceIdx s.toList = Option.none →
      s ≠ "" → extract_json_from_response s = unparsableMarker s) := by
  constructor
  · intro h1 h2 h3
    have hs : s ≠ "" := by
      intro he; subst he
      rw [show braceSubstring "" = Option.none from rfl] at h2
      exact Option.noConfusion h2
    simp [extract_json_from_response, hs, h1, h2, h3]
  · intro h1 h2 h3
    have h2' : firstBraceIdx s.data = Option.none := h2
    simp [extract_json_from_response, h3, h1, braceSubstring, h2']

/-- Witness for C7: a well-formed object embedded in prose is recovered
exactly; brace-free non-JSON prose yields the marker. -/
theorem C7_amended_witness :
    extract_json_from_response "bla \x7b\"a\": 1\x7d bla" = .dict [("a", .int 1)] ∧
    extract_json_from_response "no json here" = unparsableMarker "no json here" := by
  constructor
  · exact (C7_amended "bla \x7b\"a\": 1\x7d bla" "\x7b\"a\": 1\x7d"
      (.dict [("a", .int 1)])).1 rfl rfl rfl
  · exact (C7_amended "no json here" "" (.int 0)).2 rfl rfl (by decide)

/-- C9 counterexample: on "[1, 2]" neither parse yields an object — the
full parse yields a list — and the extractor returns that list: not a
dict, and without the "error"/"raw_response" keys the claim promises. -/
theorem C9_counterexample :
    extract_json_from_response "[1, 2]" = .list [.int 1, .int 2] ∧
    (extract_json_from_response "[1, 2]").isDict = false ∧
    (extract_json_from_response "[1, 2]").hasKey "raw_response" = false :=
  ⟨rfl, rfl, rfl⟩

/-- C9 amended: the extractor is total (it is a function of the input
string); whenever both the full parse and the brace-substring parse fail
it returns a dict containing "error" and "raw_response" with the latter
equal to the original input; and when the full parse succeeds the parsed
JSON value — of whatever type — is returned as is. -/
theorem C9_amended (s : String) :
    (json_loads s = Option.none →
      (∀ sub, braceSubstring s = some sub → json_loads sub = Option.none) →
      (extract_json_from_response s).hasKey "error" = true ∧
      (extract_json_from_response s).getD "raw_response" .none = .str s) ∧
    (∀ v, json_loads s = some v → s ≠ "" → extract_json_from_response s = v) := by
  constructor
  · intro h1 h2
    by_cases hs : s = ""
    · subst hs; exact ⟨rfl, rfl⟩
    · cases hb : braceSubstring s with
      | none =>
          have he : extract_json_from_response s = unparsableMarker s := by
            simp [extract_json_from_response, hs, h1, hb]
          rw [he]; exact ⟨rfl, rfl⟩
      | some sub =>
          have he : extract_json_from_response s = unparsableMarker s := by
            simp [extract_json_from_response, hs, h1, hb, h2 sub hb]
          rw [he]; exact ⟨rfl, rfl⟩
  · intro v h1 hs
    simp [extract_json_from_response, hs, h1]

/-- Witness for C9 at a brace-free non-JSON input. -/
theorem C9_amended_witness :
    (extract_json_from_response "xyz").hasKey "error" = true ∧
    (extract_json_from_response "xyz").getD "raw_response" .none = .str "xyz" :=
  (C9_amended "xyz").1 rfl
    (fun sub h => by
      rw [show braceSubstring "xyz" = Option.none from rfl] at h
      exact Option.noConfusion h)

/-- An urgent/any-priority task due exactly now: days_until = 0, so the
+0.3 boost fires and the ceiling clamps 0.9 + 0.3 down to 0.8. -/
theorem fallbackScore_urgent_today (now : ℤ) :
    fallbackScoreCore (.str "urgent") (.datetime now) now = 4/5 := by
  simp only [fallbackScoreCore, PyVal.truthy, baseScore,
    max_fallback_priority_score, sub_self, Int.zero_fdiv, if_true]
  norm_num [min_def]

/-- A task due in exactly 10 days: days_until = 10 falls outside every
boost branch, so the raw base score is returned without any clamp. -/
theorem fallbackScore_in10days (p : PyVal) (now : ℤ) :
    fallbackScoreCore p (.datetime (now + 10 * 86400)) now = baseScore p := by
  have h : now + 10 * 86400 - now = 864000 := by ring
  have hd : Int.fdiv 864000 86400 = 10 := by decide
  simp only [fallbackScoreCore, PyVal.truthy, h, hd, if_true]
  norm_num

/-- C4 counterexample: with now = 0, the fallback score of an urgent task
due today is 0.8 (clamped), which is strictly LESS than the 0.9 of an
urgent task due in 10 days (no boost branch, hence no clamp) — the first
inequality of the claimed monotonicity chain fails on the code. -/
theorem C4_counterexample :
    fallbackScoreCore (.str "urgent") (.datetime 0) 0 <
      fallbackScoreCore (.str "urgent") (.datetime 864000) 0 := by
  have h1 := fallbackScore_urgent_today 0
  have h2 := fallbackScore_in10days (.str "urgent") 0
  norm_num at h2
  rw [h1, h2, show baseScore (.str "urgent") = 9/10 from rfl]
  norm_num

/-- C4 amended: the claimed chain holds only in its second inequality:
fallback(urgent due today) = 0.8, fallback(urgent due in 10 days) = 0.9,
fallback(low due in 10 days) = 0.3, so urgent-in-10-days ≥ low-in-10-days,
but urgent-due-today is NOT ≥ urgent-in-10-days (the ceiling clamp applies
only when a deadline boost is added). -/
theorem C4_amended (now : ℤ) :
    fallbackScoreCore (.str "urgent") (.datetime now) now = 4/5 ∧
    fallbackScoreCore (.str "urgent") (.datetime (now + 10 * 86400)) now = 9/10 ∧
    fallbackScoreCore (.str "low") (.datetime (now + 10 * 86400)) now = 3/10 ∧
    fallbackScoreCore (.str "low") (.datetime (now + 10 * 86400)) now ≤
      fallbackScoreCore (.str "urgent") (.datetime (now + 10 * 86400)) now ∧
    ¬ (fallbackScoreCore (.str "urgent") (.datetime (now + 10 * 86400)) now ≤
        fallbackScoreCore (.str "urgent") (.datetime now) now) := by
  have h1 := fallbackScore_urgent_today now
  have h2 := fallbackScore_in10days (.str "urgent") now
  have h3 := fallbackScore_in10days (.str "low") now
  rw [show baseScore (.str "urgent") = 9/10 from rfl] at h2
  rw [show baseScore (.str "low") = 3/10 from rfl] at h3
  refine ⟨h1, h2, h3, ?_, ?_⟩
  · rw [h2, h3]; norm_num
  · rw [h1, h2]; norm_num

/-- C5 counterexample: an urgent task with no deadline takes no boost
branch, so no clamp applies: the fallback score is 0.9, strictly above
the configured 0.8 ceiling — refuting "the score never exceeds 0.8". -/
theorem C5_counterexample :
    fallbackScoreCore (.str "urgent") .none 0 = 9/10 ∧
    max_fallback_priority_score < fallbackScoreCore (.str "urgent") .none 0 := by
  have h : fallbackScoreCore (.str "urgent") .none 0 = 9/10 := by
    norm_num [fallbackScoreCore, PyVal.truthy, baseScore]
  exact ⟨h, by rw [h]; norm_num [max_fallback_priority_score]⟩

/-- C5 amended: the ceiling clamps exactly the deadline-boost branches —
every fallback score is either ≤ 0.8 or equal to the raw base score of the
task's priority (so an urgent task without a near deadline keeps 0.9,
above the ceiling) — and the end-to-end scenario holds: priority "urgent",
deadline = now, backend failing all three attempts yields the fallback
result with is_fallback = true and priority_score exactly 0.8. -/
theorem C5_amended (p d : PyVal) (now : ℤ) :
    (fallbackScoreCore p d now ≤ max_fallback_priority_score ∨
      fallbackScoreCore p d now = baseScore p) ∧
    (prioritize_task (.closed 0) now (urgentNowTask now)
        (make_request (fun _ => .connectionFailure)).1).2.1 =
      .ok (fallback_prioritization (urgentNowTask now) now) ∧
    (fallback_prioritization (urgentNowTask now) now).getD "is_fallback" .none
      = .bool true ∧
    (fallback_prioritization (urgentNowTask now) now).getD "priority_score" .none
      = .float (4/5) := by
  refine ⟨?_, rfl, rfl, ?_⟩
  · by_cases ht : d.truthy = true
    · cases d with
      | datetime t =>
          simp only [fallbackScoreCore, ht, if_true]
          by_cases h0 : Int.fdiv (t - now) 86400 ≤ 0
          · simp only [h0, if_true]; exact Or.inl (min_le_right _ _)
          · by_cases h2 : Int.fdiv (t - now) 86400 ≤ 2
            · simp only [h0, h2, if_false, if_true]
              exact Or.inl (min_le_right _ _)
            · by_cases h7 : Int.fdiv (t - now) 86400 ≤ 7
              · simp only [h0, h2, h7, if_false, if_true]
                exact Or.inl (min_le_right _ _)
              · simp only [h0, h2, h7, if_false]
                exact Or.inr trivial
      | none => simp [PyVal.truthy] at ht
      | bool b =>
          simp only [fallbackScoreCore, ht, if_true]
          exact Or.inl (min_le_right _ _)
      | int n =>
          simp only [fallbackScoreCore, ht, if_true]
          exact Or.inl (min_le_right _ _)
      | float q =>
          simp only [fallbackScoreCore, ht, if_true]
          exact Or.inl (min_le_right _ _)
      | str s =>
          simp only [fallbackScoreCore, ht, if_true]
          exact Or.inl (min_le_right _ _)
      | list xs =>
          simp only [fallbackScoreCore, ht, if_true]
          exact Or.inl (min_le_right _ _)
      | dict kvs =>
          simp only [fallbackScoreCore, ht, if_true]
          exact Or.inl (min_le_right _ _)
    · right
      simp only [fallbackScoreCore, ht]
      simp [ht]
  · show PyVal.float (fallbackScoreCore (.str "urgent") (.datetime now) now)
      = .float (4/5)
    exact congrArg PyVal.float (fallbackScore_urgent_today now)

/-- C1 counterexample: three consecutive prioritize_task calls against a
backend whose every attempt is a transient connection failure (the client
then returns None) leave `ai_breaker` CLOSED with failure count 0 — it
never transitions to OPEN — and the next call is not short-circuited: it
reaches the operation and returns the fallback result instead of raising
CircuitOpenError. -/
theorem C1_counterexample :
    (make_request (fun _ => .connectionFailure)).1 = Option.none ∧
    iterTransientCalls sampleTask Option.none 3 (.closed 0) = .closed 0 ∧
    (prioritize_task (.closed 0) 0 sampleTask Option.none).2.1 =
      .ok (fallback_prioritization sampleTask 0) :=
  ⟨rfl, rfl, rfl⟩

/-- C1 amended: transient failures can never open `ai_breaker`.
`ConnectionError` and `Timeout` are in its `exclude` list, and the
decorated operations catch every exception internally anyway: with the
backend totally unavailable the client returns None after its retries, the
operation body returns the fallback result, and the breaker records a
success.  Hence any number of consecutive transient-failure calls leaves
the breaker CLOSED with failure count 0, every call reaches the operation
(no CircuitOpenError is ever raised), and even an excluded exception
reaching the breaker directly resets the counter instead of tripping it. -/
theorem C1_amended (task : TaskObj) (n : ℕ) (now : ℤ) (c : ℕ)
    (lg : List LogRec) :
    (make_request (fun _ => .connectionFailure)).1 = Option.none ∧
    (make_request (fun _ => .timeout)).1 = Option.none ∧
    iterTransientCalls task Option.none n (.closed 0) = .closed 0 ∧
    (prioritize_task (.closed 0) now task Option.none).2.1 =
      .ok (fallback_prioritization task now) ∧
    (breakerCall (.closed c) now (.error .connectionError, lg)).1 = .closed 0 := by
  refine ⟨rfl, rfl, ?_, rfl, rfl⟩
  induction n with
  | zero => rfl
  | succ k ih =>
      have hstep : (prioritize_task (.closed 0) 0 task Option.none).1 = .closed 0 := rfl
      simpa [iterTransientCalls, hstep] using ih

/-- C2 counterexample: with the breaker in the OPEN state — a state the
claim explicitly quantifies over — and `reset_timeout` not yet elapsed,
the decorated prioritize_task short-circuits by raising
CircuitBreakerError to the caller instead of returning a dict (and runs no
body, appending no telemetry), refuting "never raises an exception to the
caller ... in any breaker state". -/
theorem C2_counterexample :
    (prioritize_task (.opened 0) 1 sampleTask (some "ok")).2.1 =
      .error .circuitBreakerError ∧
    (prioritize_task (.opened 0) 1 sampleTask (some "ok")).2.2 = [] :=
  ⟨rfl, rfl⟩

/-- C2 amended: with the breaker CLOSED and well-typed inputs — any list
of context entries, any task snapshot, any dict task_data — each of the
four public operations returns a dict containing every required field of
its variant's schema and never raises, for every backend behaviour
(arbitrary response text or total failure).  With the breaker OPEN the
three decorated operations instead raise CircuitBreakerError
(get_task_recommendations still never raises on dict input), and
analyze_context raises TypeError when passed None. -/
theorem C2_amended (c : ℕ) (now : ℤ) (es : List ContextEntry) (task : TaskObj)
    (d : List (String × PyVal)) (entries : Option (List ContextEntry))
    (rc rp re r1 r2 r3 : Option String) :
    (∃ r, (analyze_context (.closed c) now (some es) rc).2.1 = .ok r ∧
      schemaComplete r contextFieldNames = true) ∧
    (∃ r, (prioritize_task (.closed c) now task rp).2.1 = .ok r ∧
      schemaComplete r priorityFieldNames = true) ∧
    (∃ r, (enhance_task (.closed c) now (.dict d) re).2.1 = .ok r ∧
      schemaComplete r enhancementFieldNames = true) ∧
    (∃ r, (get_task_recommendations (.closed c) now (.dict d) entries
        r1 r2 r3).2.1 = .ok r ∧
      schemaComplete r recommendationFieldNames = true) := by
  refine ⟨?_, ?_, ?_, ?_⟩
  · obtain ⟨r, logs, hb, hs, _⟩ := analyze_context_body_ok es rc
    refine ⟨r, ?_, hs⟩
    show (breakerCall (.closed c) now (analyze_context_body (some es) rc)).2.1
      = .ok r
    rw [breakerCall_closed_ok c now _ r logs hb]
  · obtain ⟨r, logs, hb, hs, _⟩ := prioritize_task_body_ok task rp now
    refine ⟨r, ?_, hs⟩
    show (breakerCall (.closed c) now (prioritize_task_body task rp now)).2.1
      = .ok r
    rw [breakerCall_closed_ok c now _ r logs hb]
  · obtain ⟨r, logs, hb, hs, _⟩ := enhance_task_body_ok d re
    refine ⟨r, ?_, hs⟩
    show (breakerCall (.closed c) now (enhance_task_body (.dict d) re)).2.1
      = .ok r
    rw [breakerCall_closed_ok c now _ r logs hb]
  · obtain ⟨st', r, logs, heq, hs, _⟩ :=
      get_task_recommendations_ok c now d entries r1 r2 r3
    exact ⟨r, by rw [heq], hs⟩

/-- C3 counterexample: analyze_context on the empty entry list returns the
fixed no-context analysis from inside the try block (lines 160-169)
without ever calling `_log_processing`: zero records are appended, not
exactly one. -/
theorem C3_counterexample :
    (analyze_context (.closed 0) 0 (some []) (some "resp")).2.2 = [] := rfl

/-- C3 amended: analyze_context appends exactly one record per call only
when the entry list is nonempty, and none when it is empty;
prioritize_task always appends exactly one; enhance_task on a dict
argument appends exactly one; and get_task_recommendations appends no
record of its own — its telemetry is exactly that of the sub-operations it
invokes (two records when no context entries are analyzed). -/
theorem C3_amended (c : ℕ) (now : ℤ) (e : ContextEntry)
    (es : List ContextEntry) (task : TaskObj) (d : List (String × PyVal))
    (rc rp re r1 r2 r3 : Option String) :
    (analyze_context (.closed c) now (some (e :: es)) rc).2.2.length = 1 ∧
    (analyze_context (.closed c) now (some []) rc).2.2.length = 0 ∧
    (prioritize_task (.closed c) now task rp).2.2.length = 1 ∧
    (enhance_task (.closed c) now (.dict d) re).2.2.length = 1 ∧
    (get_task_recommendations (.closed c) now (.dict d) Option.none
      r1 r2 r3).2.2.length = 2 := by
  refine ⟨?_, rfl, ?_, ?_, ?_⟩
  · obtain ⟨r, logs, hb, _, hl⟩ := analyze_context_body_ok (e :: es) rc
    have hl1 : logs.length = 1 := by simpa using hl
    show (breakerCall (.closed c) now
      (analyze_context_body (some (e :: es)) rc)).2.2.length = 1
    rw [breakerCall_closed_ok c now _ r logs hb]
    exact hl1
  · obtain ⟨r, logs, hb, _, hl⟩ := prioritize_task_body_ok task rp now
    show (breakerCall (.closed c) now
      (prioritize_task_body task rp now)).2.2.length = 1
    rw [breakerCall_closed_ok c now _ r logs hb]
    exact hl
  · obtain ⟨r, logs, hb, _, hl⟩ := enhance_task_body_ok d re
    show (breakerCall (.closed c) now
      (enhance_task_body (.dict d) re)).2.2.length = 1
    rw [breakerCall_closed_ok c now _ r logs hb]
    exact hl
  · obtain ⟨st', r, logs, heq, _, hl⟩ :=
      get_task_recommendations_ok c now d Option.none r1 r2 r3
    rw [heq]
    exact hl

end SmartTodo
